import Mathlib

/-!
Shallow embedding of `src/examples/llm-proxies/openai-gpt4-proxy.py`:
a protocol-translation proxy converting Gemini-style `generateContent`
requests into OpenAI-style chat-completion requests and back.

The Python source accesses decoded JSON with `.get(key, default)`
semantics.  The embedding mirrors each field access with a typed record
whose optional fields correspond to the keys the source reads, and each
`.get` default is applied exactly where the source applies it.
`json.loads` (Python standard library, not part of this repository) is
abstracted as a parameter `parse : String → Option Json`; `none` models
a raised `JSONDecodeError`.
-/

namespace Proxy

/-- A JSON value.  Numbers are modelled as rationals (the source only
ever passes them through or compares defaults such as `0.1`). -/
inductive Json where
  | null : Json
  | bool (b : Bool) : Json
  | num (q : Rat) : Json
  | str (s : String) : Json
  | arr (xs : List Json) : Json
  | obj (kvs : List (String × Json)) : Json

/-- Python substring test `needle in haystack`, as used by
`_is_gemini_api_request` on the request path (character-list version). -/
def startsWithChars : List Char → List Char → Bool
  | [], _ => true
  | _ :: _, [] => false
  | a :: as, b :: bs => a == b && startsWithChars as bs

/-- The test `containsChars needle hay` is true iff `needle` occurs as a
contiguous run inside `hay`. -/
def containsChars (needle : List Char) : List Char → Bool
  | [] => needle.isEmpty
  | b :: bs => startsWithChars needle (b :: bs) || containsChars needle bs

/-- Python `needle in haystack` on strings. -/
def strContains (needle haystack : String) : Bool :=
  containsChars needle.toList haystack.toList

/-- ASCII whitespace, the characters Python `str.strip()` removes that
occur in this protocol (space, tab, newline, carriage return, vertical
tab, form feed). -/
def isSpaceChar (c : Char) : Bool :=
  c == ' ' || c == '\t' || c == '\n' || c == '\r' || c == '\x0b' || c == '\x0c'

/-- Python `s.strip()`: remove leading and trailing whitespace. -/
def strip (s : String) : String :=
  String.mk (((s.toList.dropWhile isSpaceChar).reverse.dropWhile isSpaceChar).reverse)

/-! ## Source (Gemini-style) request schema -/

/-- A `functionCall` request part body: the source reads only
`functionCall.get('name', 'unknown')` on the request path. -/
structure FunctionCall where
  name : Option String

/-- A request `Part`.  The source tests `'text' in part` and
`'functionCall' in part` independently, so both fields may be present. -/
structure Part where
  text : Option String
  functionCall : Option FunctionCall

/-- One `contents` entry: `content.get('role')` and
`content.get('parts', [])`.  An absent `parts` key behaves exactly like
`[]`, so it is modelled as the empty list. -/
structure ContentEntry where
  role : Option String
  parts : List Part

/-- One `functionDeclarations` entry: the source reads
`name`/`description`/`parameters` with defaults `'unknown'`/`''`/`{}`. -/
structure FuncDecl where
  name : Option String
  description : Option String
  parameters : Option Json

/-- One `tools` entry: `tool.get('functionDeclarations', [])`. -/
structure Tool where
  functionDeclarations : List FuncDecl

/-- The `generationConfig` block: `get('temperature', 0.1)` and
`get('maxOutputTokens', 4000)`. -/
structure GenerationConfig where
  temperature : Option Rat
  maxOutputTokens : Option Int

/-- A decoded Gemini request, with the three keys the source reads
(`contents`, `tools`, `generationConfig`), each defaulted as in the
source (`[]`, `[]`, `{}`). -/
structure SourceRequest where
  contents : List ContentEntry
  tools : List Tool
  generationConfig : GenerationConfig

/-! ## Target (OpenAI-style) request schema -/

/-- An OpenAI chat message `{role, content}`. -/
structure Message where
  role : String
  content : String
deriving DecidableEq, Repr

/-- The `function` member of a flattened OpenAI tool. -/
structure OpenAIFunction where
  name : String
  description : String
  parameters : Json

/-- One flattened OpenAI tool `{type:'function', function:{...}}`. -/
structure OpenAITool where
  type : String
  function : OpenAIFunction

/-- The OpenAI request built by `_convert_gemini_to_openai`.  `tools`
and `tool_choice` are `none` when the corresponding keys are absent
from the produced dict. -/
structure OpenAIRequest where
  model : String
  messages : List Message
  stream : Bool
  temperature : Rat
  max_tokens : Int
  tools : Option (List OpenAITool)
  tool_choice : Option String

/-! ## Request translation (`_convert_gemini_to_openai`) -/

/-- The inner part loop of `_convert_gemini_to_openai`: accumulate
`part['text']` when present, then append the literal marker
`"\n[Function Call: <name or 'unknown'>]"` when `functionCall` is
present. -/
def part_text (acc : String) (part : Part) : String :=
  let acc1 := match part.text with
    | some t => acc ++ t
    | none => acc
  match part.functionCall with
    | some fc => acc1 ++ "\n[Function Call: " ++ fc.name.getD "unknown" ++ "]"
    | none => acc1

/-- One iteration of the `contents` loop: entries whose role is not in
`['user','model']` produce no message; `'model'` maps to `'assistant'`;
the concatenated part text is stripped and the message is kept only if
the stripped text is non-empty. -/
def entry_message (content : ContentEntry) : Option Message :=
  match content.role with
  | some role =>
    if role = "user" ∨ role = "model" then
      let openai_role := if role = "model" then "assistant" else role
      let message_content := content.parts.foldl part_text ""
      if strip message_content = "" then none
      else some { role := openai_role, content := strip message_content }
    else none
  | none => none

/-- Make one OpenAI tool entry from a `functionDeclarations` entry,
with the source's defaults. -/
def mk_openai_tool (fd : FuncDecl) : OpenAITool :=
  { type := "function"
    function :=
      { name := fd.name.getD "unknown"
        description := fd.description.getD ""
        parameters := fd.parameters.getD (Json.obj []) } }

/-- The tool-flattening loop: every `functionDeclarations` entry of
every tool, appended in order into one list. -/
def flatten_tools (tools : List Tool) : List OpenAITool :=
  tools.foldl (fun acc tool => acc ++ tool.functionDeclarations.map mk_openai_tool) []

/-- Embedding of `_convert_gemini_to_openai`.  Total on the typed schema: the
`except` re-raise branch in the source is unreachable for inputs of
this shape. -/
def convert_gemini_to_openai (model : String) (req : SourceRequest) : OpenAIRequest :=
  let messages := req.contents.filterMap entry_message
  let base : OpenAIRequest :=
    { model := model
      messages := messages
      stream := false
      temperature := req.generationConfig.temperature.getD 0.1
      max_tokens := req.generationConfig.maxOutputTokens.getD 4000
      tools := none
      tool_choice := none }
  if req.tools.isEmpty then base
  else
    let openai_tools := flatten_tools req.tools
    if openai_tools.isEmpty then base
    else { base with tools := some openai_tools, tool_choice := some "auto" }

/-! ## Target (OpenAI-style) response schema -/

/-- The `function` member of a `tool_calls` entry:
`function.get('name', 'unknown')` and `function.get('arguments', '{}')`. -/
structure ToolCallFunction where
  name : Option String
  arguments : Option String

/-- One `tool_calls` entry: `tool_call.get('function', {})`. -/
structure ToolCall where
  function : Option ToolCallFunction

/-- The `choice['message']` block (`choice.get('message', {})`).  `content` is the
optional string behind the truthiness test `if message.get('content')`.
An absent or `None` `tool_calls` behaves exactly like `[]` (the loop
body never runs), so it is modelled as a list defaulting to `[]`. -/
structure ChoiceMessage where
  content : Option String
  tool_calls : List ToolCall

/-- One `choices` entry: `choice.get('message', {})` and
`choice.get('finish_reason', 'stop')`. -/
structure Choice where
  message : ChoiceMessage
  finish_reason : Option String

/-- The `usage` block, each counter defaulting to `0`. -/
structure Usage where
  prompt_tokens : Option Int
  completion_tokens : Option Int
  total_tokens : Option Int

/-- A decoded OpenAI response: `response.get('choices', [])` (absent
behaves exactly like `[]`) and `response.get('usage', {})`. -/
structure OpenAIResponse where
  choices : List Choice
  usage : Usage

/-! ## Source (Gemini-style) response schema -/

/-- A response part: either `{text: ...}` or
`{functionCall: {name, args}}`. -/
inductive RespPart where
  | text (s : String) : RespPart
  | functionCall (name : String) (args : Json) : RespPart

/-- The `content` member of a candidate. -/
structure CandidateContent where
  parts : List RespPart
  role : String

/-- One Gemini candidate. -/
structure Candidate where
  content : CandidateContent
  finishReason : String
  index : Int
  safetyRatings : List Json

/-- The `usageMetadata` block. -/
structure UsageMetadata where
  promptTokenCount : Int
  candidatesTokenCount : Int
  totalTokenCount : Int

/-- The Gemini response produced by `_convert_openai_to_gemini`. -/
structure GeminiResponse where
  candidates : List Candidate
  usageMetadata : UsageMetadata

/-! ## Response translation (`_convert_openai_to_gemini`) -/

/-- One iteration of the `tool_calls` loop: decode
`function.get('arguments', '{}')` as JSON, substituting `\x7b\x7d` (the
empty mapping) when the decode fails (`except: args = \x7b\x7d`). -/
def tool_call_part (parse : String → Option Json) (tc : ToolCall) : RespPart :=
  let function := tc.function.getD { name := none, arguments := none }
  let args := (parse (function.arguments.getD "\x7b\x7d")).getD (Json.obj [])
  RespPart.functionCall (function.name.getD "unknown") args

/-- The exception message raised (then wrapped) on empty `choices`. -/
def no_choices_msg : String :=
  "Error converting OpenAI to Gemini format: No choices in OpenAI response"

/-- Embedding of `_convert_openai_to_gemini`.  `Except.error` models the raised
exception carrying its message; the function's own `except` clause
wraps the empty-choices message with
`'Error converting OpenAI to Gemini format: '`. -/
def convert_openai_to_gemini (parse : String → Option Json)
    (resp : OpenAIResponse) : Except String GeminiResponse :=
  match resp.choices with
  | [] => .error no_choices_msg
  | choice :: _ =>
    let message := choice.message
    let text_parts : List RespPart :=
      match message.content with
      | some c => if c.isEmpty then [] else [RespPart.text c]
      | none => []
    let call_parts := message.tool_calls.map (tool_call_part parse)
    let finish_reason := choice.finish_reason.getD "stop"
    let gemini_finish_reason := if finish_reason = "stop" then "STOP" else "OTHER"
    .ok
      { candidates :=
          [{ content := { parts := text_parts ++ call_parts, role := "model" }
             finishReason := gemini_finish_reason
             index := 0
             safetyRatings := [] }]
        usageMetadata :=
          { promptTokenCount := resp.usage.prompt_tokens.getD 0
            candidatesTokenCount := resp.usage.completion_tokens.getD 0
            totalTokenCount := resp.usage.total_tokens.getD 0 } }

/-! ## HTTP handler (`do_POST`) -/

/-- Embedding of `_is_gemini_api_request`: substring match on the raw path. -/
def is_gemini_api_request (path : String) : Bool :=
  strContains "generateContent" path ||
  strContains "/v1/models/" path ||
  strContains "/v1beta/" path

/-- JSON rendering of a response part, as `json.dumps` serializes the
dict built by the source. -/
def resp_part_to_json : RespPart → Json
  | .text s => Json.obj [("text", Json.str s)]
  | .functionCall n args =>
    Json.obj [("functionCall", Json.obj [("name", Json.str n), ("args", args)])]

/-- JSON rendering of the Gemini response dict built by the source. -/
def gemini_response_to_json (g : GeminiResponse) : Json :=
  Json.obj
    [("candidates", Json.arr (g.candidates.map fun c =>
        Json.obj
          [("content", Json.obj
              [("parts", Json.arr (c.content.parts.map resp_part_to_json)),
               ("role", Json.str c.content.role)]),
           ("finishReason", Json.str c.finishReason),
           ("index", Json.num c.index),
           ("safetyRatings", Json.arr c.safetyRatings)])),
     ("usageMetadata", Json.obj
        [("promptTokenCount", Json.num g.usageMetadata.promptTokenCount),
         ("candidatesTokenCount", Json.num g.usageMetadata.candidatesTokenCount),
         ("totalTokenCount", Json.num g.usageMetadata.totalTokenCount)])]

/-- An HTTP response: status code and JSON body. -/
structure HttpResponse where
  status : Nat
  body : Json

/-- The error envelope written by the `except` clause of `do_POST`. -/
def error_envelope (msg : String) : Json :=
  Json.obj
    [("error", Json.obj
       [("code", Json.num 500),
        ("message", Json.str ("Proxy error: " ++ msg)),
        ("status", Json.str "INTERNAL_ERROR")])]

/-- The 404 body for POST paths that do not match the Gemini API. -/
def not_gemini_body : Json :=
  Json.obj [("error", Json.str "Not a Gemini API endpoint")]

/-- Embedding of `do_POST`.  I/O is abstracted at the two network boundaries: the
decoded request body is `gemini_request : Except String SourceRequest`
(`Except.error` models an exception raised while reading or
JSON-decoding the body), and the outbound call `_make_openai_request`
is `call : OpenAIRequest → Except String OpenAIResponse`
(`Except.error` models a non-200 upstream status or transport
failure).  Every exception propagating out of the pipeline is caught
by the single `except` clause and rendered as the 500 envelope. -/
def do_POST (model : String) (path : String)
    (gemini_request : Except String SourceRequest)
    (call : OpenAIRequest → Except String OpenAIResponse)
    (parse : String → Option Json) : HttpResponse :=
  if is_gemini_api_request path then
    match gemini_request with
    | .error e => { status := 500, body := error_envelope e }
    | .ok greq =>
      match call (convert_gemini_to_openai model greq) with
      | .error e => { status := 500, body := error_envelope e }
      | .ok oresp =>
        match convert_openai_to_gemini parse oresp with
        | .error e => { status := 500, body := error_envelope e }
        | .ok g => { status := 200, body := gemini_response_to_json g }
  else
    { status := 404, body := not_gemini_body }

/-! ## Helper lemmas -/

/-- Folding list-append over a list equals appending the bind. -/
theorem foldl_append_eq {α β : Type} (f : α → List β) :
    ∀ (l : List α) (acc : List β),
      l.foldl (fun a x => a ++ f x) acc = acc ++ l.flatMap f
  | [], acc => by simp
  | x :: xs, acc => by
    simp [List.foldl_cons, foldl_append_eq f xs, List.append_assoc]

/-- The list `flatten_tools tools` holds every `functionDeclarations` entry of every
tool, in order. -/
theorem flatten_tools_eq (tools : List Tool) :
    flatten_tools tools = tools.flatMap fun t => t.functionDeclarations.map mk_openai_tool := by
  simpa [flatten_tools] using foldl_append_eq (fun t : Tool => t.functionDeclarations.map mk_openai_tool) tools []

/-! ## Claims -/

/-- C1: a contents entry with a supported role and a single part
`{functionCall:{name:"lookup"}}` (no text part) is kept, and its
message content is the trimmed marker `"[Function Call: lookup]"`. -/
theorem claim_C1_function_call_marker (model role : String)
    (h : role = "user" ∨ role = "model") :
    entry_message
        { role := some role,
          parts := [{ text := none, functionCall := some { name := some "lookup" } }] }
      = some { role := if role = "model" then "assistant" else role,
               content := "[Function Call: lookup]" } ∧
    (convert_gemini_to_openai model
        { contents :=
            [{ role := some role,
               parts := [{ text := none, functionCall := some { name := some "lookup" } }] }],
          tools := [],
          generationConfig := { temperature := none, maxOutputTokens := none } }).messages
      = [{ role := if role = "model" then "assistant" else role,
           content := "[Function Call: lookup]" }] := by
  rcases h with h | h <;> subst h <;> exact ⟨rfl, rfl⟩

theorem claim_C1_witness :
    ("user" = "user" ∨ "user" = "model") ∧
    (entry_message
        { role := some "user",
          parts := [{ text := none, functionCall := some { name := some "lookup" } }] }
      = some { role := if "user" = "model" then "assistant" else "user",
               content := "[Function Call: lookup]" } ∧
    (convert_gemini_to_openai "gpt-4o"
        { contents :=
            [{ role := some "user",
               parts := [{ text := none, functionCall := some { name := some "lookup" } }] }],
          tools := [],
          generationConfig := { temperature := none, maxOutputTokens := none } }).messages
      = [{ role := if "user" = "model" then "assistant" else "user",
           content := "[Function Call: lookup]" }]) :=
  ⟨Or.inl rfl, claim_C1_function_call_marker "gpt-4o" "user" (Or.inl rfl)⟩

/-- Unfolding of `entry_message` on an entry whose `role` key is
present. -/
theorem entry_message_eq (r : String) (parts : List Part) :
    entry_message { role := some r, parts := parts } =
      if r = "user" ∨ r = "model" then
        (if strip (parts.foldl part_text "") = "" then none
         else some { role := if r = "model" then "assistant" else r,
                     content := strip (parts.foldl part_text "") })
      else none := rfl

/-- C5: the role mapping is `"model"↦"assistant"`, `"user"↦"user"`;
an entry with any other role yields no message (and no error: the
translation is a total function). -/
theorem claim_C5_role_mapping (c : ContentEntry) (r : String) (hr : c.role = some r) :
    (r = "model" → ∀ m, entry_message c = some m → m.role = "assistant") ∧
    (r = "user" → ∀ m, entry_message c = some m → m.role = "user") ∧
    (r ≠ "model" → r ≠ "user" → entry_message c = none) := by
  obtain ⟨ro, parts⟩ := c
  cases hr
  rw [entry_message_eq]
  refine ⟨?_, ?_, ?_⟩
  · rintro rfl m hm
    rw [if_pos (Or.inr rfl)] at hm
    by_cases hs : strip (parts.foldl part_text "") = ""
    · rw [if_pos hs] at hm; cases hm
    · rw [if_neg hs] at hm
      cases hm
      rfl
  · rintro rfl m hm
    rw [if_pos (Or.inl rfl)] at hm
    by_cases hs : strip (parts.foldl part_text "") = ""
    · rw [if_pos hs] at hm; cases hm
    · rw [if_neg hs] at hm
      cases hm
      rfl
  · intro h1 h2
    rw [if_neg]
    rintro (h | h) <;> [exact h2 h; exact h1 h]

theorem claim_C5_witness :
    ContentEntry.role
        { role := some "system", parts := [{ text := some "be brief", functionCall := none }] }
      = some "system" ∧
    (("system" = "model" → ∀ m, entry_message
        { role := some "system", parts := [{ text := some "be brief", functionCall := none }] }
          = some m → m.role = "assistant") ∧
    ("system" = "user" → ∀ m, entry_message
        { role := some "system", parts := [{ text := some "be brief", functionCall := none }] }
          = some m → m.role = "user") ∧
    ("system" ≠ "model" → "system" ≠ "user" → entry_message
        { role := some "system", parts := [{ text := some "be brief", functionCall := none }] }
          = none)) :=
  ⟨rfl, claim_C5_role_mapping
    { role := some "system", parts := [{ text := some "be brief", functionCall := none }] }
    "system" rfl⟩

/-- C7: an entry whose concatenated part text strips to the empty
string is omitted; in particular
`contents=[{role:"user",parts:[{text:"  "}]}]` yields `messages=[]`. -/
theorem claim_C7_whitespace_dropped (c : ContentEntry) (model : String)
    (h : strip (c.parts.foldl part_text "") = "") :
    entry_message c = none ∧
    (convert_gemini_to_openai model
        { contents := [{ role := some "user", parts := [{ text := some "  ", functionCall := none }] }],
          tools := [],
          generationConfig := { temperature := none, maxOutputTokens := none } }).messages
      = [] := by
  constructor
  · obtain ⟨ro, parts⟩ := c
    cases ro with
    | none => rfl
    | some r =>
      replace h : strip (parts.foldl part_text "") = "" := h
      rw [entry_message_eq, h]
      simp
  · rfl

theorem claim_C7_witness :
    strip ((ContentEntry.parts
        { role := some "user", parts := [{ text := some "  ", functionCall := none }] }).foldl
          part_text "") = "" ∧
    (entry_message { role := some "user", parts := [{ text := some "  ", functionCall := none }] } = none ∧
    (convert_gemini_to_openai "gpt-4o"
        { contents := [{ role := some "user", parts := [{ text := some "  ", functionCall := none }] }],
          tools := [],
          generationConfig := { temperature := none, maxOutputTokens := none } }).messages
      = []) :=
  ⟨by decide, claim_C7_whitespace_dropped
    { role := some "user", parts := [{ text := some "  ", functionCall := none }] }
    "gpt-4o" (by decide)⟩

/-- C8: every `functionDeclarations` entry of every tool is flattened,
in order, into one target tool list; when that list is non-empty it is
emitted together with `tool_choice = "auto"`, and when it is empty both
keys are absent from the produced request. -/
theorem claim_C8_tool_flattening (model : String) (req : SourceRequest) :
    flatten_tools req.tools
      = (req.tools.flatMap fun t => t.functionDeclarations.map mk_openai_tool) ∧
    ((flatten_tools req.tools).isEmpty = false →
      (convert_gemini_to_openai model req).tools = some (flatten_tools req.tools) ∧
      (convert_gemini_to_openai model req).tool_choice = some "auto") ∧
    ((flatten_tools req.tools).isEmpty = true →
      (convert_gemini_to_openai model req).tools = none ∧
      (convert_gemini_to_openai model req).tool_choice = none) := by
  refine ⟨flatten_tools_eq req.tools, ?_, ?_⟩
  · intro hne
    have htools : req.tools.isEmpty = false := by
      cases hl : req.tools with
      | nil => rw [hl] at hne; simp [flatten_tools] at hne
      | cons a l => rfl
    simp [convert_gemini_to_openai, htools, hne]
  · intro hemp
    by_cases htools : req.tools.isEmpty
    · simp [convert_gemini_to_openai, htools]
    · simp [convert_gemini_to_openai, htools, hemp]

theorem claim_C8_witness :
    (flatten_tools
        [{ functionDeclarations := [{ name := some "f1", description := none, parameters := none }] },
         { functionDeclarations := [{ name := some "f2", description := none, parameters := none }] }]).length = 2 ∧
    (flatten_tools
        [{ functionDeclarations := [{ name := some "f1", description := none, parameters := none }] },
         { functionDeclarations := [{ name := some "f2", description := none, parameters := none }] }]
      = ([{ functionDeclarations := [{ name := some "f1", description := none, parameters := none }] },
          { functionDeclarations := [{ name := some "f2", description := none, parameters := none }] }] :
              List Tool).flatMap fun t => t.functionDeclarations.map mk_openai_tool) ∧
    ((flatten_tools ([{ functionDeclarations := [] }] : List Tool)).isEmpty = true →
      (convert_gemini_to_openai "gpt-4o"
          { contents := [], tools := [{ functionDeclarations := [] }],
            generationConfig := { temperature := none, maxOutputTokens := none } }).tools = none ∧
      (convert_gemini_to_openai "gpt-4o"
          { contents := [], tools := [{ functionDeclarations := [] }],
            generationConfig := { temperature := none, maxOutputTokens := none } }).tool_choice = none) :=
  ⟨rfl,
   (claim_C8_tool_flattening "gpt-4o"
      { contents := [],
        tools :=
          [{ functionDeclarations := [{ name := some "f1", description := none, parameters := none }] },
           { functionDeclarations := [{ name := some "f2", description := none, parameters := none }] }],
        generationConfig := { temperature := none, maxOutputTokens := none } }).1,
   (claim_C8_tool_flattening "gpt-4o"
      { contents := [], tools := [{ functionDeclarations := [] }],
        generationConfig := { temperature := none, maxOutputTokens := none } }).2.2⟩

/-- C6: when the first choice carries a `finish_reason` value, the
candidate's `finishReason` is `"STOP"` exactly when that value is
`"stop"` and `"OTHER"` otherwise. -/
theorem claim_C6_finish_reason_mapping (parse : String → Option Json)
    (resp : OpenAIResponse) (choice : Choice) (rest : List Choice)
    (hc : resp.choices = choice :: rest) (r : String)
    (hr : choice.finish_reason = some r) :
    ∃ g, convert_openai_to_gemini parse resp = .ok g ∧
      g.candidates.map (fun c => c.finishReason)
        = [if r = "stop" then "STOP" else "OTHER"] := by
  unfold convert_openai_to_gemini
  rw [hc]
  refine ⟨_, rfl, ?_⟩
  simp [hr]

theorem claim_C6_witness :
    (OpenAIResponse.choices
        { choices := [{ message := { content := some "hi", tool_calls := [] },
                        finish_reason := some "length" }],
          usage := { prompt_tokens := none, completion_tokens := none, total_tokens := none } }
      = ({ message := { content := some "hi", tool_calls := [] },
           finish_reason := some "length" } : Choice) :: []) ∧
    Choice.finish_reason
        { message := { content := some "hi", tool_calls := [] },
          finish_reason := some "length" } = some "length" ∧
    ∃ g, convert_openai_to_gemini (fun _ => none)
        { choices := [{ message := { content := some "hi", tool_calls := [] },
                        finish_reason := some "length" }],
          usage := { prompt_tokens := none, completion_tokens := none, total_tokens := none } }
        = .ok g ∧
      g.candidates.map (fun c => c.finishReason)
        = [if "length" = "stop" then "STOP" else "OTHER"] :=
  ⟨rfl, rfl,
   claim_C6_finish_reason_mapping (fun _ => none)
     { choices := [{ message := { content := some "hi", tool_calls := [] },
                     finish_reason := some "length" }],
       usage := { prompt_tokens := none, completion_tokens := none, total_tokens := none } }
     { message := { content := some "hi", tool_calls := [] }, finish_reason := some "length" }
     [] rfl "length" rfl⟩

/-- C10: when the first choice carries no `finish_reason` at all, the
default `'stop'` applies before mapping, so the candidate's
`finishReason` is `"STOP"`. -/
theorem claim_C10_absent_finish_reason (parse : String → Option Json)
    (resp : OpenAIResponse) (choice : Choice) (rest : List Choice)
    (hc : resp.choices = choice :: rest)
    (hr : choice.finish_reason = none) :
    ∃ g, convert_openai_to_gemini parse resp = .ok g ∧
      g.candidates.map (fun c => c.finishReason) = ["STOP"] := by
  unfold convert_openai_to_gemini
  rw [hc]
  refine ⟨_, rfl, ?_⟩
  simp [hr]

theorem claim_C10_witness :
    (OpenAIResponse.choices
        { choices := [{ message := { content := some "hi", tool_calls := [] },
                        finish_reason := none }],
          usage := { prompt_tokens := none, completion_tokens := none, total_tokens := none } }
      = ({ message := { content := some "hi", tool_calls := [] },
           finish_reason := none } : Choice) :: []) ∧
    ∃ g, convert_openai_to_gemini (fun _ => none)
        { choices := [{ message := { content := some "hi", tool_calls := [] },
                        finish_reason := none }],
          usage := { prompt_tokens := none, completion_tokens := none, total_tokens := none } }
        = .ok g ∧
      g.candidates.map (fun c => c.finishReason) = ["STOP"] :=
  ⟨rfl,
   claim_C10_absent_finish_reason (fun _ => none)
     { choices := [{ message := { content := some "hi", tool_calls := [] },
                     finish_reason := none }],
       usage := { prompt_tokens := none, completion_tokens := none, total_tokens := none } }
     { message := { content := some "hi", tool_calls := [] }, finish_reason := none }
     [] rfl rfl⟩

/-- C9: a `tool_calls` entry whose `function.arguments` string fails to
decode as JSON yields a `functionCall` part with `args` equal to the
empty mapping, and the rest of the translation proceeds without error:
the result is still `Except.ok`, with every candidate's parts ending in
the mapped tool calls. -/
theorem claim_C9_malformed_arguments (parse : String → Option Json)
    (nm : Option String) (s : String) (hbad : parse s = none)
    (resp : OpenAIResponse) (choice : Choice) (rest : List Choice)
    (hc : resp.choices = choice :: rest) :
    tool_call_part parse { function := some { name := nm, arguments := some s } }
      = RespPart.functionCall (nm.getD "unknown") (Json.obj []) ∧
    ∃ g, convert_openai_to_gemini parse resp = .ok g ∧
      ∀ c ∈ g.candidates, ∃ tp, c.content.parts
        = tp ++ choice.message.tool_calls.map (tool_call_part parse) := by
  constructor
  · simp [tool_call_part, hbad]
  · unfold convert_openai_to_gemini
    rw [hc]
    refine ⟨_, rfl, ?_⟩
    intro c hcmem
    simp only [List.mem_singleton] at hcmem
    subst hcmem
    exact ⟨_, rfl⟩

theorem claim_C9_witness :
    ((fun t => if t = "\x7b bad json" then (none : Option Json) else some (Json.obj []))
        "\x7b bad json" = none) ∧
    (OpenAIResponse.choices
        ⟨[⟨⟨none, [⟨some ⟨some "lookup", some "\x7b bad json"⟩⟩]⟩, some "tool_calls"⟩], ⟨none, none, none⟩⟩
      = ⟨⟨none, [⟨some ⟨some "lookup", some "\x7b bad json"⟩⟩]⟩, some "tool_calls"⟩ :: []) ∧
    (tool_call_part
        (fun t => if t = "\x7b bad json" then (none : Option Json) else some (Json.obj []))
        ⟨some ⟨some "lookup", some "\x7b bad json"⟩⟩
      = RespPart.functionCall ((some "lookup").getD "unknown") (Json.obj []) ∧
    ∃ g, convert_openai_to_gemini
        (fun t => if t = "\x7b bad json" then (none : Option Json) else some (Json.obj []))
        ⟨[⟨⟨none, [⟨some ⟨some "lookup", some "\x7b bad json"⟩⟩]⟩, some "tool_calls"⟩], ⟨none, none, none⟩⟩
        = .ok g ∧
      ∀ c ∈ g.candidates, ∃ tp, c.content.parts
        = tp ++ (ChoiceMessage.tool_calls ⟨none, [⟨some ⟨some "lookup", some "\x7b bad json"⟩⟩]⟩).map
            (tool_call_part
              (fun t => if t = "\x7b bad json" then (none : Option Json) else some (Json.obj [])))) :=
  ⟨by simp, rfl,
   claim_C9_malformed_arguments
     (fun t => if t = "\x7b bad json" then (none : Option Json) else some (Json.obj []))
     (some "lookup") "\x7b bad json" (by simp)
     ⟨[⟨⟨none, [⟨some ⟨some "lookup", some "\x7b bad json"⟩⟩]⟩, some "tool_calls"⟩], ⟨none, none, none⟩⟩
     ⟨⟨none, [⟨some ⟨some "lookup", some "\x7b bad json"⟩⟩]⟩, some "tool_calls"⟩
     [] rfl⟩

/-- C2: a response whose `choices` is empty (or absent, which the
source defaults to the empty list) makes the response translation fail
with the no-choices error rather than produce a degraded response, and
through the handler this surfaces as HTTP 500 whose body carries
`code 500` and `status "INTERNAL_ERROR"`. -/
theorem claim_C2_empty_choices_error (parse : String → Option Json)
    (resp : OpenAIResponse) (hc : resp.choices = []) (model path : String)
    (hp : is_gemini_api_request path = true) (greq : SourceRequest)
    (call : OpenAIRequest → Except String OpenAIResponse)
    (hcall : call (convert_gemini_to_openai model greq) = .ok resp) :
    convert_openai_to_gemini parse resp = .error no_choices_msg ∧
    do_POST model path (.ok greq) call parse
      = { status := 500, body := error_envelope no_choices_msg } ∧
    error_envelope no_choices_msg
      = Json.obj [("error", Json.obj
          [("code", Json.num 500),
           ("message", Json.str ("Proxy error: " ++ no_choices_msg)),
           ("status", Json.str "INTERNAL_ERROR")])] := by
  have h1 : convert_openai_to_gemini parse resp = .error no_choices_msg := by
    unfold convert_openai_to_gemini
    rw [hc]
  refine ⟨h1, ?_, rfl⟩
  unfold do_POST
  rw [hp]
  simp [hcall, h1]

theorem claim_C2_witness :
    (OpenAIResponse.choices ⟨[], ⟨none, none, none⟩⟩ = []) ∧
    is_gemini_api_request "/v1beta/models/foo:generateContent" = true ∧
    ((fun _ : OpenAIRequest =>
        (Except.ok ⟨[], ⟨none, none, none⟩⟩ : Except String OpenAIResponse))
      (convert_gemini_to_openai "gpt-4o" ⟨[], [], ⟨none, none⟩⟩)
      = (Except.ok ⟨[], ⟨none, none, none⟩⟩ : Except String OpenAIResponse)) ∧
    (convert_openai_to_gemini (fun _ => none) ⟨[], ⟨none, none, none⟩⟩
      = .error no_choices_msg ∧
    do_POST "gpt-4o" "/v1beta/models/foo:generateContent"
        (.ok ⟨[], [], ⟨none, none⟩⟩)
        (fun _ : OpenAIRequest =>
          (Except.ok ⟨[], ⟨none, none, none⟩⟩ : Except String OpenAIResponse))
        (fun _ => none)
      = { status := 500, body := error_envelope no_choices_msg } ∧
    error_envelope no_choices_msg
      = Json.obj [("error", Json.obj
          [("code", Json.num 500),
           ("message", Json.str ("Proxy error: " ++ no_choices_msg)),
           ("status", Json.str "INTERNAL_ERROR")])]) :=
  ⟨rfl, by decide, rfl,
   claim_C2_empty_choices_error (fun _ => none) ⟨[], ⟨none, none, none⟩⟩ rfl
     "gpt-4o" "/v1beta/models/foo:generateContent" (by decide)
     ⟨[], [], ⟨none, none⟩⟩
     (fun _ : OpenAIRequest =>
       (Except.ok ⟨[], ⟨none, none, none⟩⟩ : Except String OpenAIResponse))
     rfl⟩

/-- Unfolding of `do_POST` on a matching path when reading and
decoding the body raised (exception message `e`). -/
theorem do_POST_decode_error_eq (model path : String) (e : String)
    (call : OpenAIRequest → Except String OpenAIResponse)
    (parse : String → Option Json)
    (hp : is_gemini_api_request path = true) :
    do_POST model path (.error e) call parse
      = { status := 500, body := error_envelope e } := by
  unfold do_POST
  rw [hp]
  rfl

/-- Unfolding of `do_POST` on a matching path once the body decoded. -/
theorem do_POST_ok_eq (model path : String) (greq : SourceRequest)
    (call : OpenAIRequest → Except String OpenAIResponse)
    (parse : String → Option Json)
    (hp : is_gemini_api_request path = true) :
    do_POST model path (.ok greq) call parse
      = match call (convert_gemini_to_openai model greq) with
        | .error e => { status := 500, body := error_envelope e }
        | .ok oresp =>
          match convert_openai_to_gemini parse oresp with
          | .error e => { status := 500, body := error_envelope e }
          | .ok g => { status := 200, body := gemini_response_to_json g } := by
  unfold do_POST
  rw [hp]
  rfl

/-- C3: on a matching POST path, an exception raised at any pipeline
stage is caught at the handler boundary and answered with HTTP 500
whose body is exactly the envelope carrying that exception's message:
a body read/decode failure with message `e` gives
`500 / error_envelope e`; an outbound-call failure with message `e`
gives `500 / error_envelope e`; a response-translation failure with
message `e` gives `500 / error_envelope e`; the envelope is the
`code 500 / "Proxy error: <message>" / "INTERNAL_ERROR"` object.  The
only non-500 outcome is the 200 success carrying the translated body,
and `do_POST` is a total function, so no input produces an uncaught
error.  (Request translation, the remaining stage the claim names,
is total on the typed schema — its `except` re-raise never fires — and
shape errors on raw input are part of the decode stage here.) -/
theorem claim_C3_error_boundary (model path : String)
    (call : OpenAIRequest → Except String OpenAIResponse)
    (parse : String → Option Json)
    (hp : is_gemini_api_request path = true) :
    (∀ e, do_POST model path (.error e) call parse
        = { status := 500, body := error_envelope e }) ∧
    (∀ greq e, call (convert_gemini_to_openai model greq) = .error e →
      do_POST model path (.ok greq) call parse
        = { status := 500, body := error_envelope e }) ∧
    (∀ greq oresp e, call (convert_gemini_to_openai model greq) = .ok oresp →
      convert_openai_to_gemini parse oresp = .error e →
      do_POST model path (.ok greq) call parse
        = { status := 500, body := error_envelope e }) ∧
    (∀ m, error_envelope m = Json.obj [("error", Json.obj
        [("code", Json.num 500),
         ("message", Json.str ("Proxy error: " ++ m)),
         ("status", Json.str "INTERNAL_ERROR")])]) ∧
    (∀ greq oresp g, call (convert_gemini_to_openai model greq) = .ok oresp →
      convert_openai_to_gemini parse oresp = .ok g →
      do_POST model path (.ok greq) call parse
        = { status := 200, body := gemini_response_to_json g }) ∧
    (∀ gemini_request,
      (∃ g, do_POST model path gemini_request call parse
          = { status := 200, body := gemini_response_to_json g }) ∨
      ∃ m, do_POST model path gemini_request call parse
          = { status := 500, body := error_envelope m }) := by
  have h1 : ∀ e, do_POST model path (.error e) call parse
      = { status := 500, body := error_envelope e } :=
    fun e => do_POST_decode_error_eq model path e call parse hp
  have h2 : ∀ greq e, call (convert_gemini_to_openai model greq) = .error e →
      do_POST model path (.ok greq) call parse
        = { status := 500, body := error_envelope e } := by
    intro greq e hcall
    rw [do_POST_ok_eq model path greq call parse hp, hcall]
  have h3 : ∀ greq oresp e, call (convert_gemini_to_openai model greq) = .ok oresp →
      convert_openai_to_gemini parse oresp = .error e →
      do_POST model path (.ok greq) call parse
        = { status := 500, body := error_envelope e } := by
    intro greq oresp e hcall hconv
    rw [do_POST_ok_eq model path greq call parse hp, hcall]
    show (match convert_openai_to_gemini parse oresp with
          | Except.error err => ({ status := 500, body := error_envelope err } : HttpResponse)
          | Except.ok g => { status := 200, body := gemini_response_to_json g })
        = { status := 500, body := error_envelope e }
    rw [hconv]
  have h4 : ∀ greq oresp g, call (convert_gemini_to_openai model greq) = .ok oresp →
      convert_openai_to_gemini parse oresp = .ok g →
      do_POST model path (.ok greq) call parse
        = { status := 200, body := gemini_response_to_json g } := by
    intro greq oresp g hcall hconv
    rw [do_POST_ok_eq model path greq call parse hp, hcall]
    show (match convert_openai_to_gemini parse oresp with
          | Except.error err => ({ status := 500, body := error_envelope err } : HttpResponse)
          | Except.ok g => { status := 200, body := gemini_response_to_json g })
        = { status := 200, body := gemini_response_to_json g }
    rw [hconv]
  refine ⟨h1, h2, h3, fun m => rfl, h4, ?_⟩
  intro gemini_request
  cases gemini_request with
  | error e => exact Or.inr ⟨e, h1 e⟩
  | ok greq =>
    cases hcall : call (convert_gemini_to_openai model greq) with
    | error e => exact Or.inr ⟨e, h2 greq e hcall⟩
    | ok oresp =>
      cases hconv : convert_openai_to_gemini parse oresp with
      | error e => exact Or.inr ⟨e, h3 greq oresp e hcall hconv⟩
      | ok g => exact Or.inl ⟨g, h4 greq oresp g hcall hconv⟩

theorem claim_C3_witness :
    is_gemini_api_request "/v1beta/models/foo:generateContent" = true ∧
    ((∀ e, do_POST "gpt-4o" "/v1beta/models/foo:generateContent" (.error e)
        (fun _ : OpenAIRequest =>
          (Except.error "upstream down" : Except String OpenAIResponse))
        (fun _ => none)
        = { status := 500, body := error_envelope e }) ∧
    (∀ greq e,
      (fun _ : OpenAIRequest =>
          (Except.error "upstream down" : Except String OpenAIResponse))
        (convert_gemini_to_openai "gpt-4o" greq) = .error e →
      do_POST "gpt-4o" "/v1beta/models/foo:generateContent" (.ok greq)
        (fun _ : OpenAIRequest =>
          (Except.error "upstream down" : Except String OpenAIResponse))
        (fun _ => none)
        = { status := 500, body := error_envelope e }) ∧
    (∀ greq oresp e,
      (fun _ : OpenAIRequest =>
          (Except.error "upstream down" : Except String OpenAIResponse))
        (convert_gemini_to_openai "gpt-4o" greq) = .ok oresp →
      convert_openai_to_gemini (fun _ => none) oresp = .error e →
      do_POST "gpt-4o" "/v1beta/models/foo:generateContent" (.ok greq)
        (fun _ : OpenAIRequest =>
          (Except.error "upstream down" : Except String OpenAIResponse))
        (fun _ => none)
        = { status := 500, body := error_envelope e }) ∧
    (∀ m, error_envelope m = Json.obj [("error", Json.obj
        [("code", Json.num 500),
         ("message", Json.str ("Proxy error: " ++ m)),
         ("status", Json.str "INTERNAL_ERROR")])]) ∧
    (∀ greq oresp g,
      (fun _ : OpenAIRequest =>
          (Except.error "upstream down" : Except String OpenAIResponse))
        (convert_gemini_to_openai "gpt-4o" greq) = .ok oresp →
      convert_openai_to_gemini (fun _ => none) oresp = .ok g →
      do_POST "gpt-4o" "/v1beta/models/foo:generateContent" (.ok greq)
        (fun _ : OpenAIRequest =>
          (Except.error "upstream down" : Except String OpenAIResponse))
        (fun _ => none)
        = { status := 200, body := gemini_response_to_json g }) ∧
    (∀ gemini_request,
      (∃ g, do_POST "gpt-4o" "/v1beta/models/foo:generateContent" gemini_request
          (fun _ : OpenAIRequest =>
            (Except.error "upstream down" : Except String OpenAIResponse))
          (fun _ => none)
          = { status := 200, body := gemini_response_to_json g }) ∨
      ∃ m, do_POST "gpt-4o" "/v1beta/models/foo:generateContent" gemini_request
          (fun _ : OpenAIRequest =>
            (Except.error "upstream down" : Except String OpenAIResponse))
          (fun _ => none)
          = { status := 500, body := error_envelope m })) :=
  ⟨by decide,
   claim_C3_error_boundary "gpt-4o" "/v1beta/models/foo:generateContent"
     (fun _ : OpenAIRequest =>
       (Except.error "upstream down" : Except String OpenAIResponse))
     (fun _ => none) (by decide)⟩

/-- C4: a POST is treated as a Gemini API request iff its path contains
`"generateContent"`, `"/v1/models/"`, or `"/v1beta/"`; a non-matching
path gets 404 with the not-a-Gemini-endpoint body;
`"/v1beta/models/foo:generateContent"` matches while
`"/v1/chat/completions"` does not. -/
theorem claim_C4_endpoint_recognition (model path : String)
    (greq : Except String SourceRequest)
    (call : OpenAIRequest → Except String OpenAIResponse)
    (parse : String → Option Json)
    (h : is_gemini_api_request path = false) :
    is_gemini_api_request path
      = (strContains "generateContent" path || strContains "/v1/models/" path ||
         strContains "/v1beta/" path) ∧
    do_POST model path greq call parse = { status := 404, body := not_gemini_body } ∧
    is_gemini_api_request "/v1beta/models/foo:generateContent" = true ∧
    is_gemini_api_request "/v1/chat/completions" = false := by
  refine ⟨rfl, ?_, by decide, by decide⟩
  unfold do_POST
  simp [h]

theorem claim_C4_witness :
    is_gemini_api_request "/v1/chat/completions" = false ∧
    (is_gemini_api_request "/v1/chat/completions"
      = (strContains "generateContent" "/v1/chat/completions" ||
         strContains "/v1/models/" "/v1/chat/completions" ||
         strContains "/v1beta/" "/v1/chat/completions") ∧
    do_POST "gpt-4o" "/v1/chat/completions" (.error "ignored")
        (fun _ => .error "ignored") (fun _ => none)
      = { status := 404, body := not_gemini_body } ∧
    is_gemini_api_request "/v1beta/models/foo:generateContent" = true ∧
    is_gemini_api_request "/v1/chat/completions" = false) :=
  ⟨by decide,
   claim_C4_endpoint_recognition "gpt-4o" "/v1/chat/completions" (.error "ignored")
     (fun _ => .error "ignored") (fun _ => none) (by decide)⟩

end Proxy
